import Mathlib

/-!
# Verification of the netd `TrafficController` traffic-accounting state manager

Shallow embedding of the repository's `TrafficController` (declared in
`src/server/TrafficController.h`) together with the behaviour of its control
operations.  The header contains the data model (the `UidTag`, `StatsKey` and
`Stats` structs), the table handles, the capacity constants and the operation
signatures; the operation bodies are not part of the repository snapshot, so
they are modelled from the specification (§4 of the spec), faithful to its
words, on top of the table primitive the spec postulates in §6 (atomic
upsert / lookup / delete on a bounded kernel map).

Machine integers (`uint32_t`, `uint64_t`, `int`) are embedded as `Nat`/`Int`;
none of the modelled operations performs arithmetic on them, so no overflow
reduction is needed.
-/

set_option autoImplicit false

universe u v

namespace AndroidNet

/-- Error kinds of the control API, from spec §7: `InvalidHandle` (cookie
unresolvable), `InvalidArgument` (value out of allowed range),
`ResourceExhausted` (table at capacity on insert of a new key),
`NotSupported` (subsystem disabled), `Io`/`Internal` (table primitive
failure). -/
inductive Error where
  | InvalidHandle
  | InvalidArgument
  | ResourceExhausted
  | NotSupported
  | Io
  | Internal
deriving DecidableEq

/- Constants from `src/server/TrafficController.h`. -/

/-- `#define DEFAULT_OVERFLOWUID 65534` (TrafficController.h line 28). -/
def DEFAULT_OVERFLOWUID : Nat := 65534

/-- `constexpr const int COOKIE_UID_MAP_SIZE = 100;` (line 48). -/
def COOKIE_UID_MAP_SIZE : Nat := 100

/-- `constexpr const int UID_COUNTERSET_MAP_SIZE = 100;` (line 49). -/
def UID_COUNTERSET_MAP_SIZE : Nat := 100

/-- `constexpr const int UID_STATS_MAP_SIZE = 100;` (line 50). -/
def UID_STATS_MAP_SIZE : Nat := 100

/-- `constexpr const int TAG_STATS_MAP_SIZE = 100;` (line 51). -/
def TAG_STATS_MAP_SIZE : Nat := 100

/-- `constexpr const int COUNTERSETS_LIMIT = 2;` (line 53).  Kept as `Int`
because `setCounterSet` takes a C `int`. -/
def COUNTERSETS_LIMIT : Int := 2

/-- `constexpr const int NONEXIST_COOKIE = 0;` (line 55): the reserved
"no identity" cookie value. -/
def NONEXIST_COOKIE : Nat := 0

/-- `struct UidTag { uint32_t uid; uint32_t tag; };` (lines 60-63). -/
structure UidTag where
  uid : Nat
  tag : Nat
deriving DecidableEq

/-- `struct StatsKey { uint32_t uid; uint32_t tag; uint32_t counterSet;
uint32_t ifaceIndex; };` (lines 65-70). -/
structure StatsKey where
  uid : Nat
  tag : Nat
  counterSet : Nat
  ifaceIndex : Nat
deriving DecidableEq

/-- `struct Stats` (lines 75-88): twelve `uint64_t` counters. -/
structure Stats where
  rxTcpPackets : Nat
  rxTcpBytes : Nat
  txTcpPackets : Nat
  txTcpBytes : Nat
  rxUdpPackets : Nat
  rxUdpBytes : Nat
  txUdpPackets : Nat
  txUdpBytes : Nat
  rxOtherPackets : Nat
  rxOtherBytes : Nat
  txOtherPackets : Nat
  txOtherBytes : Nat
deriving DecidableEq

/-- Traffic direction of a counter: receive or transmit. -/
inductive Direction where
  | rx
  | tx
deriving DecidableEq

/-- What a counter counts: packets or bytes. -/
inductive CountKind where
  | packets
  | bytes
deriving DecidableEq

/-- Transport-protocol bucket of a counter. -/
inductive TransportProto where
  | tcp
  | udp
  | other
deriving DecidableEq

/-- The counter of `s` for a given direction, count kind and protocol: maps
each of the 12 combinations to the corresponding `Stats` field. -/
def Stats.counter (s : Stats) : Direction → CountKind → TransportProto → Nat
  | .rx, .packets, .tcp => s.rxTcpPackets
  | .rx, .bytes, .tcp => s.rxTcpBytes
  | .tx, .packets, .tcp => s.txTcpPackets
  | .tx, .bytes, .tcp => s.txTcpBytes
  | .rx, .packets, .udp => s.rxUdpPackets
  | .rx, .bytes, .udp => s.rxUdpBytes
  | .tx, .packets, .udp => s.txUdpPackets
  | .tx, .bytes, .udp => s.txUdpBytes
  | .rx, .packets, .other => s.rxOtherPackets
  | .rx, .bytes, .other => s.rxOtherBytes
  | .tx, .packets, .other => s.txOtherPackets
  | .tx, .bytes, .other => s.txOtherBytes

/-- All combinations of {rx, tx} × {packets, bytes} × {tcp, udp, other}. -/
def allCounterKinds : List (Direction × CountKind × TransportProto) :=
  [(.rx, .packets, .tcp), (.rx, .bytes, .tcp),
   (.tx, .packets, .tcp), (.tx, .bytes, .tcp),
   (.rx, .packets, .udp), (.rx, .bytes, .udp),
   (.tx, .packets, .udp), (.tx, .bytes, .udp),
   (.rx, .packets, .other), (.rx, .bytes, .other),
   (.tx, .packets, .other), (.tx, .bytes, .other)]

section AssocListPrimitives

variable {κ : Type u} {ν : Type v} [DecidableEq κ]

/-- First value stored under key `k` in an association list (kernel-map
lookup; a real kernel map holds at most one entry per key). -/
def findValue (k : κ) : List (κ × ν) → Option ν
  | [] => none
  | e :: rest => if e.1 = k then some e.2 else findValue k rest

/-- Whether the association list holds an entry for key `k`. -/
def containsKey (k : κ) : List (κ × ν) → Bool
  | [] => false
  | e :: rest => if e.1 = k then true else containsKey k rest

/-- Number of entries stored under key `k`. -/
def countKey (k : κ) : List (κ × ν) → Nat
  | [] => 0
  | e :: rest => (if e.1 = k then 1 else 0) + countKey k rest

/-- Remove every entry whose key satisfies `p` (the sequential result of the
purge walk of spec §4.3: advance the cursor over every key, deleting the
matching ones). -/
def removeMatching (p : κ → Bool) : List (κ × ν) → List (κ × ν)
  | [] => []
  | e :: rest => if p e.1 then removeMatching p rest else e :: removeMatching p rest

/-- Remove the entry stored under key `k` (kernel-map delete). -/
def removeKey (k : κ) (l : List (κ × ν)) : List (κ × ν) :=
  removeMatching (fun a => decide (a = k)) l

end AssocListPrimitives

/-- Modelled from the spec: the bounded kernel-resident table primitive of
§6 collaborator (c) (atomic upsert / lookup / delete), with the fixed
capacity of §6 ("table capacities are fixed constants set at creation") and
invariant (4) of §3 ("all four tables are bounded in capacity; insertion
past capacity fails rather than evicting").  The repository snapshot holds
only the `base::unique_fd` handles to these kernel maps
(`TrafficController.h` lines 139-170), not the map implementation itself. -/
structure BpfMap (κ : Type u) (ν : Type v) where
  entries : List (κ × ν)
  capacity : Nat
deriving DecidableEq

section BpfMapOperations

variable {κ : Type u} {ν : Type v} [DecidableEq κ]

/-- Atomic single-entry lookup. -/
def BpfMap.lookup (m : BpfMap κ ν) (k : κ) : Option ν :=
  findValue k m.entries

/-- Atomic single-entry upsert: overwrite if the key is present (a cookie
maps to at most one identity — spec §3 invariant (1)); insert if there is
room; fail with `ResourceExhausted` if the table is at capacity and the key
is new (spec §3 invariant (4), §7). -/
def BpfMap.updateEntry (m : BpfMap κ ν) (k : κ) (v : ν) : Except Error (BpfMap κ ν) :=
  if containsKey k m.entries then
    .ok { m with entries := (k, v) :: removeKey k m.entries }
  else if m.entries.length < m.capacity then
    .ok { m with entries := (k, v) :: m.entries }
  else
    .error .ResourceExhausted

/-- Atomic single-entry delete; deleting an absent key is a no-op. -/
def BpfMap.deleteEntry (m : BpfMap κ ν) (k : κ) : BpfMap κ ν :=
  { m with entries := removeKey k m.entries }

end BpfMapOperations

/-- The `TrafficController` state (`TrafficController.h` lines 90-181): the
four kernel tables held through `base::unique_fd` members and the
`ebpfSupported` flag.  `mCookieTagMap` maps a `uint64_t` socket cookie to a
`UidTag`; `mUidCounterSetMap` maps a uid to its counterSet;
`mUidStatsMap`/`mTagStatsMap` map a `StatsKey` to `Stats`. -/
structure TrafficController where
  mCookieTagMap : BpfMap Nat UidTag
  mUidCounterSetMap : BpfMap Nat Nat
  mUidStatsMap : BpfMap StatsKey Stats
  mTagStatsMap : BpfMap StatsKey Stats
  ebpfSupported : Bool
deriving DecidableEq

/-- `NONEXIST_STATSKEY` (TrafficController.h lines 131-132):
`{.uid = DEFAULT_OVERFLOWUID, .tag = 0, .counterSet = 0, .ifaceIndex = 0}`,
the sentinel key from which the purge walk starts. -/
def NONEXIST_STATSKEY : StatsKey :=
  { uid := DEFAULT_OVERFLOWUID, tag := 0, counterSet := 0, ifaceIndex := 0 }

/-- Modelled from the spec: the aggregation key the external accounting path
(out of scope, §1/§6) uses for a statistics bucket — `StatsKey
{uid, tag, trafficClass, interfaceIndex}` per §3. -/
def accountingStatsKey (uid tag counterSet ifaceIndex : Nat) : StatsKey :=
  { uid := uid, tag := tag, counterSet := counterSet, ifaceIndex := ifaceIndex }

/-- A `StatsKey` whose fields are in `uint32_t` range and whose counterSet
is a legal traffic class (`[0, COUNTERSETS_LIMIT)`, §3 invariant (2)). -/
def StatsKey.wellFormed (k : StatsKey) : Prop :=
  k.uid < 2 ^ 32 ∧ k.tag < 2 ^ 32 ∧ (k.counterSet : Int) < COUNTERSETS_LIMIT ∧
    k.ifaceIndex < 2 ^ 32

instance (k : StatsKey) : Decidable k.wellFormed := by
  unfold StatsKey.wellFormed
  infer_instance

/-- Modelled from the spec (§4.1; the operation body is absent from the
snapshot — only the declaration `int tagSocket(int sockFd, uint32_t tag,
uid_t uid)` at line 106 is): resolve the socket to its cookie (the resolver
is the external collaborator (a) of §6, so the model takes the resolved
cookie; an unresolvable socket yields the reserved `NONEXIST_COOKIE`) and
atomically upsert `{uid, tag}` into `mCookieTagMap`.  The C++ method
mutates `this` and returns a status, embedded as a state-passing pair. -/
def tagSocket (tc : TrafficController) (cookie tag uid : Nat) :
    TrafficController × Option Error :=
  if cookie = NONEXIST_COOKIE then (tc, some .InvalidHandle)
  else
    match tc.mCookieTagMap.updateEntry cookie { uid := uid, tag := tag } with
    | .ok m => ({ tc with mCookieTagMap := m }, none)
    | .error e => (tc, some e)

/-- Modelled from the spec (§4.1; body absent from the snapshot — only the
declaration `int untagSocket(int sockFd)` at line 113 is): delete the
cookie→identity entry if present; absence is not an error (idempotent
no-op).  §4.1 lists no failure mode for untagging; resolution failures
belong to the external resolver. -/
def untagSocket (tc : TrafficController) (cookie : Nat) :
    TrafficController × Option Error :=
  ({ tc with mCookieTagMap := tc.mCookieTagMap.deleteEntry cookie }, none)

/-- Modelled from the spec (§4.2; body absent from the snapshot — only the
declaration `int setCounterSet(int counterSetNum, uid_t uid)` at line 118
is): fail with `InvalidArgument` when the counterSet is outside
`[0, COUNTERSETS_LIMIT)`, leaving the table unchanged; otherwise atomically
upsert `uid -> counterSetNum` into `mUidCounterSetMap`. -/
def setCounterSet (tc : TrafficController) (counterSetNum : Int) (uid : Nat) :
    TrafficController × Option Error :=
  if counterSetNum < 0 ∨ COUNTERSETS_LIMIT ≤ counterSetNum then
    (tc, some .InvalidArgument)
  else
    match tc.mUidCounterSetMap.updateEntry uid counterSetNum.toNat with
    | .ok m => ({ tc with mUidCounterSetMap := m }, none)
    | .error e => (tc, some e)

/-- Whether a uid-stats key is purged by `deleteTagData tag uid`: spec §4.3
"removes every entry in uid-stats ... whose key matches `(uid, tag)`". -/
def matchUidStatsKey (tag uid : Nat) (k : StatsKey) : Bool :=
  decide (k.uid = uid) && decide (k.tag = tag)

/-- Whether a tagged-stats key is purged by `deleteTagData tag uid`: spec
§4.3 "every entry in ... tagged-stats whose key matches `(uid, tag)`, and —
when `tag == 0` — ... every tagged-stats entry for that uid regardless of
tag". -/
def matchTagStatsKey (tag uid : Nat) (k : StatsKey) : Bool :=
  decide (k.uid = uid) && (decide (k.tag = tag) || decide (tag = 0))

/-- Modelled from the spec (§4.3; body absent from the snapshot — only the
declaration `int deleteTagData(uint32_t tag, uid_t uid)` at line 128 is):
walk both statistics tables with the get-next-key cursor, deleting every
key whose `uid`/`tag` fields match; rendered sequentially as a pass over
the entry list removing matches. -/
def deleteTagData (tc : TrafficController) (tag uid : Nat) :
    TrafficController × Option Error :=
  ({ tc with
      mUidStatsMap := { tc.mUidStatsMap with
        entries := removeMatching (matchUidStatsKey tag uid) tc.mUidStatsMap.entries },
      mTagStatsMap := { tc.mTagStatsMap with
        entries := removeMatching (matchTagStatsKey tag uid) tc.mTagStatsMap.entries } },
   none)

/-- Modelled from the spec (§4.5; the snapshot holds only the
`mSkDestroyListener` member at line 172): the socket-teardown reclaimer's
handling of one socket-destroy notification — delete the corresponding
cookie→identity entry if present; absence is a silent no-op; the statistics
tables are not touched. -/
def handleSkDestroy (tc : TrafficController) (cookie : Nat) : TrafficController :=
  { tc with mCookieTagMap := tc.mCookieTagMap.deleteEntry cookie }

/-- Modelled from the spec (§4.4/§6/§7): the outcomes of the external steps
`start` performs — opening/creating each of the four tables and attaching
the two accounting programs. -/
structure StartEnv where
  cookieTagMapOk : Bool
  uidCounterSetMapOk : Bool
  uidStatsMapOk : Bool
  tagStatsMapOk : Bool
  ingressAttachOk : Bool
  egressAttachOk : Bool
deriving DecidableEq

/-- Modelled from the spec (§6 `start()`, §4.4, §7; body absent from the
snapshot — only the declaration `netdutils::Status start()` at line 95 is):
open/create all four tables (failure of any is fatal and propagated as a
table-primitive error); attempt both program attachments; attach failure is
recorded in `ebpfSupported` and never fails startup. -/
def start (env : StartEnv) : Except Error TrafficController :=
  if env.cookieTagMapOk && env.uidCounterSetMapOk && env.uidStatsMapOk &&
      env.tagStatsMapOk then
    .ok { mCookieTagMap := { entries := [], capacity := COOKIE_UID_MAP_SIZE },
          mUidCounterSetMap := { entries := [], capacity := UID_COUNTERSET_MAP_SIZE },
          mUidStatsMap := { entries := [], capacity := UID_STATS_MAP_SIZE },
          mTagStatsMap := { entries := [], capacity := TAG_STATS_MAP_SIZE },
          ebpfSupported := env.ingressAttachOk && env.egressAttachOk }
  else
    .error .Io

/-- A sequence of `tagSocket` calls `(cookie, tag, uid)`, issued in order;
stops at the first failure.  Quantifying over every such order captures
every interleaving of calls whose individual table updates are atomic. -/
def tagSocketAll : TrafficController → List (Nat × Nat × Nat) →
    TrafficController × Option Error
  | tc, [] => (tc, none)
  | tc, c :: rest =>
    match tagSocket tc c.1 c.2.1 c.2.2 with
    | (tc', none) => tagSocketAll tc' rest
    | (tc', some e) => (tc', some e)

/-- The all-zero `Stats` value, used in concrete test states. -/
def statsZero : Stats :=
  { rxTcpPackets := 0, rxTcpBytes := 0, txTcpPackets := 0, txTcpBytes := 0,
    rxUdpPackets := 0, rxUdpBytes := 0, txUdpPackets := 0, txUdpBytes := 0,
    rxOtherPackets := 0, rxOtherBytes := 0, txOtherPackets := 0, txOtherBytes := 0 }

/-- The freshly started controller (all tables empty, programs attached). -/
def tcStart : TrafficController :=
  { mCookieTagMap := { entries := [], capacity := COOKIE_UID_MAP_SIZE },
    mUidCounterSetMap := { entries := [], capacity := UID_COUNTERSET_MAP_SIZE },
    mUidStatsMap := { entries := [], capacity := UID_STATS_MAP_SIZE },
    mTagStatsMap := { entries := [], capacity := TAG_STATS_MAP_SIZE },
    ebpfSupported := true }

/-- `tcStart` after `tagSocket` of cookie 1 with tag 2, uid 3. -/
def tcTagged : TrafficController :=
  { tcStart with
    mCookieTagMap := { entries := [(1, { uid := 3, tag := 2 })],
                       capacity := COOKIE_UID_MAP_SIZE } }

/-- A controller whose cookie→identity table has capacity 2, for the
capacity-boundary witness. -/
def tcCap2 : TrafficController :=
  { tcStart with mCookieTagMap := { entries := [], capacity := 2 } }

/-- Two tag calls for the two distinct fresh cookies 1 and 2. -/
def callsCap2 : List (Nat × Nat × Nat) := [(1, 10, 20), (2, 11, 21)]

/-- Three callers' tag calls for the distinct fresh cookies 1, 2 and 3. -/
def callsThree : List (Nat × Nat × Nat) := [(1, 10, 20), (2, 11, 21), (3, 12, 22)]

/-- A controller holding statistics entries for uids 5 and 6, used as a
concrete purge input. -/
def tcStatsEx : TrafficController :=
  { tcStart with
    mUidStatsMap := { entries := [({ uid := 5, tag := 0, counterSet := 0, ifaceIndex := 1 },
                                   statsZero)],
                      capacity := UID_STATS_MAP_SIZE },
    mTagStatsMap := { entries := [({ uid := 5, tag := 7, counterSet := 0, ifaceIndex := 1 },
                                   statsZero),
                                  ({ uid := 6, tag := 7, counterSet := 0, ifaceIndex := 1 },
                                   statsZero)],
                      capacity := TAG_STATS_MAP_SIZE } }

/-- A controller whose uid→counterSet table is full: uids `0..99` are
present and the table capacity is `UID_COUNTERSET_MAP_SIZE = 100` (a state
reachable by 100 successful `setCounterSet` calls). -/
def tcFullCounterSet : TrafficController :=
  { tcStart with
    mUidCounterSetMap :=
      { entries := (List.range UID_COUNTERSET_MAP_SIZE).map (fun i => (i, 0)),
        capacity := UID_COUNTERSET_MAP_SIZE } }

/-- A startup environment in which all four tables open but both program
attachments fail. -/
def envAttachFail : StartEnv :=
  { cookieTagMapOk := true, uidCounterSetMapOk := true, uidStatsMapOk := true,
    tagStatsMapOk := true, ingressAttachOk := false, egressAttachOk := false }

/-! ## Lemmas about the association-list primitives -/

section AssocListLemmas

variable {κ : Type u} {ν : Type v} [DecidableEq κ]

@[simp] theorem findValue_nil (k : κ) : findValue (ν := ν) k [] = none := rfl

@[simp] theorem findValue_cons (k : κ) (e : κ × ν) (rest : List (κ × ν)) :
    findValue k (e :: rest) = if e.1 = k then some e.2 else findValue k rest := rfl

@[simp] theorem containsKey_nil (k : κ) : containsKey (ν := ν) k [] = false := rfl

@[simp] theorem containsKey_cons (k : κ) (e : κ × ν) (rest : List (κ × ν)) :
    containsKey k (e :: rest) = if e.1 = k then true else containsKey k rest := rfl

theorem containsKey_eq_isSome_findValue (k : κ) (l : List (κ × ν)) :
    containsKey k l = (findValue k l).isSome := by
  induction l with
  | nil => rfl
  | cons e rest ih =>
    by_cases h : e.1 = k <;> simp [h, ih]

theorem findValue_eq_none_of_containsKey_eq_false {k : κ} {l : List (κ × ν)}
    (h : containsKey k l = false) : findValue k l = none := by
  rw [containsKey_eq_isSome_findValue] at h
  cases hf : findValue k l <;> simp [hf] at h ⊢

theorem containsKey_eq_true_of_findValue_eq_some {k : κ} {l : List (κ × ν)} {v : ν}
    (h : findValue k l = some v) : containsKey k l = true := by
  rw [containsKey_eq_isSome_findValue, h]
  rfl

theorem findValue_removeMatching_of_true {p : κ → Bool} {k : κ} (hk : p k = true)
    (l : List (κ × ν)) : findValue k (removeMatching p l) = none := by
  induction l with
  | nil => rfl
  | cons e rest ih =>
    by_cases he : p e.1
    · simpa [removeMatching, he] using ih
    · have hne : e.1 ≠ k := by
        intro hek
        rw [hek, hk] at he
        exact he rfl
      simp [removeMatching, he, hne, ih]

theorem findValue_removeMatching_of_false {p : κ → Bool} {k : κ} (hk : p k = false)
    (l : List (κ × ν)) : findValue k (removeMatching p l) = findValue k l := by
  induction l with
  | nil => rfl
  | cons e rest ih =>
    by_cases he : p e.1
    · have hne : e.1 ≠ k := by
        intro hek
        rw [hek, hk] at he
        exact Bool.false_ne_true he
      simp [removeMatching, he, hne, ih]
    · by_cases hek : e.1 = k
      · simp [removeMatching, he, hek, hk]
      · simp [removeMatching, he, hek, ih]

theorem findValue_removeMatching_some {p : κ → Bool} {k : κ} {v : ν}
    {l : List (κ × ν)} (h : findValue k (removeMatching p l) = some v) :
    findValue k l = some v := by
  by_cases hk : p k
  · rw [findValue_removeMatching_of_true hk] at h
    exact absurd h (by simp)
  · rwa [findValue_removeMatching_of_false (by simpa using hk)] at h

theorem findValue_removeKey_self (k : κ) (l : List (κ × ν)) :
    findValue k (removeKey k l) = none :=
  findValue_removeMatching_of_true (by simp) l

theorem findValue_removeKey_ne {k k' : κ} (h : k' ≠ k) (l : List (κ × ν)) :
    findValue k' (removeKey k l) = findValue k' l :=
  findValue_removeMatching_of_false (by simpa using h) l

theorem removeKey_of_findValue_eq_none {k : κ} {l : List (κ × ν)}
    (h : findValue k l = none) : removeKey k l = l := by
  induction l with
  | nil => rfl
  | cons e rest ih =>
    by_cases he : e.1 = k
    · simp [he] at h
    · simp only [findValue_cons, if_neg he] at h
      have ht := ih h
      simp only [removeKey] at ht ⊢
      simp [removeMatching, he, ht]

theorem countKey_removeKey_self (k : κ) (l : List (κ × ν)) :
    countKey k (removeKey k l) = 0 := by
  induction l with
  | nil => rfl
  | cons e rest ih =>
    by_cases he : e.1 = k
    · simpa [removeKey, removeMatching, he] using ih
    · simpa [removeKey, removeMatching, countKey, he] using ih

theorem countKey_eq_zero_of_containsKey_eq_false {k : κ} {l : List (κ × ν)}
    (h : containsKey k l = false) : countKey k l = 0 := by
  induction l with
  | nil => rfl
  | cons e rest ih =>
    by_cases he : e.1 = k
    · simp [he] at h
    · simp [he] at h
      simpa [countKey, he] using ih h

end AssocListLemmas

/-! ## Lemmas about the table primitive -/

section BpfMapLemmas

variable {κ : Type u} {ν : Type v} [DecidableEq κ]

theorem BpfMap.updateEntry_ok_lookup_self {m m' : BpfMap κ ν} {k : κ} {v : ν}
    (h : m.updateEntry k v = .ok m') : m'.lookup k = some v := by
  unfold BpfMap.updateEntry at h
  by_cases hc : containsKey k m.entries
  · simp only [if_pos hc, Except.ok.injEq] at h
    subst h
    simp [BpfMap.lookup]
  · simp only [if_neg hc] at h
    by_cases hl : m.entries.length < m.capacity
    · simp only [if_pos hl, Except.ok.injEq] at h
      subst h
      simp [BpfMap.lookup]
    · simp [if_neg hl] at h

theorem BpfMap.updateEntry_ok_lookup_ne {m m' : BpfMap κ ν} {k : κ} {v : ν}
    (h : m.updateEntry k v = .ok m') {k' : κ} (hne : k' ≠ k) :
    m'.lookup k' = m.lookup k' := by
  unfold BpfMap.updateEntry at h
  by_cases hc : containsKey k m.entries
  · simp only [if_pos hc, Except.ok.injEq] at h
    subst h
    simp [BpfMap.lookup, hne, Ne.symm hne, findValue_removeKey_ne hne]
  · simp only [if_neg hc] at h
    by_cases hl : m.entries.length < m.capacity
    · simp only [if_pos hl, Except.ok.injEq] at h
      subst h
      simp [BpfMap.lookup, Ne.symm hne]
    · simp [if_neg hl] at h

theorem BpfMap.updateEntry_ok_countKey {m m' : BpfMap κ ν} {k : κ} {v : ν}
    (h : m.updateEntry k v = .ok m') : countKey k m'.entries = 1 := by
  unfold BpfMap.updateEntry at h
  by_cases hc : containsKey k m.entries
  · simp only [if_pos hc, Except.ok.injEq] at h
    subst h
    simp [countKey, countKey_removeKey_self]
  · simp only [if_neg hc] at h
    by_cases hl : m.entries.length < m.capacity
    · simp only [if_pos hl, Except.ok.injEq] at h
      subst h
      simp [countKey, countKey_eq_zero_of_containsKey_eq_false (Bool.of_not_eq_true hc)]
    · simp [if_neg hl] at h

theorem BpfMap.updateEntry_ok_of_containsKey {m : BpfMap κ ν} {k : κ} (v : ν)
    (hc : containsKey k m.entries = true) :
    m.updateEntry k v = .ok { m with entries := (k, v) :: removeKey k m.entries } := by
  simp [BpfMap.updateEntry, hc]

theorem BpfMap.updateEntry_ok_of_room {m : BpfMap κ ν} {k : κ} (v : ν)
    (hc : containsKey k m.entries = false)
    (hl : m.entries.length < m.capacity) :
    m.updateEntry k v = .ok { m with entries := (k, v) :: m.entries } := by
  simp [BpfMap.updateEntry, hc, hl]

theorem BpfMap.updateEntry_full_fresh {m : BpfMap κ ν} {k : κ} (v : ν)
    (hc : containsKey k m.entries = false)
    (hl : ¬ m.entries.length < m.capacity) :
    m.updateEntry k v = .error .ResourceExhausted := by
  simp [BpfMap.updateEntry, hc, hl]

end BpfMapLemmas

/-! ## The shared tagging-sequence lemma -/

/-- Running a sequence of `tagSocket` calls whose cookies are pairwise
distinct, valid and fresh, with room for all of them, succeeds and
produces exactly the expected entries, touching nothing else.  Shared by
the capacity-boundary and interleaving theorems. -/
theorem tagSocketAll_fresh (calls : List (Nat × Nat × Nat)) :
    ∀ tc : TrafficController,
      (∀ c ∈ calls, c.1 ≠ NONEXIST_COOKIE) →
      (∀ c ∈ calls, containsKey c.1 tc.mCookieTagMap.entries = false) →
      (calls.map (fun c => c.1)).Nodup →
      tc.mCookieTagMap.entries.length + calls.length ≤ tc.mCookieTagMap.capacity →
      ∃ tc', tagSocketAll tc calls = (tc', none) ∧
        tc'.mCookieTagMap.capacity = tc.mCookieTagMap.capacity ∧
        tc'.mCookieTagMap.entries.length =
          tc.mCookieTagMap.entries.length + calls.length ∧
        (∀ c ∈ calls,
          tc'.mCookieTagMap.lookup c.1 = some { uid := c.2.2, tag := c.2.1 }) ∧
        (∀ k : Nat, (∀ c ∈ calls, c.1 ≠ k) →
          tc'.mCookieTagMap.lookup k = tc.mCookieTagMap.lookup k) ∧
        tc'.mUidCounterSetMap = tc.mUidCounterSetMap ∧
        tc'.mUidStatsMap = tc.mUidStatsMap ∧
        tc'.mTagStatsMap = tc.mTagStatsMap := by
  induction calls with
  | nil =>
    intro tc _ _ _ _
    exact ⟨tc, rfl, rfl, by simp, by simp, fun k _ => rfl, rfl, rfl, rfl⟩
  | cons c rest ih =>
    intro tc hnz hfresh hnodup hcap
    have hcz : c.1 ≠ NONEXIST_COOKIE := hnz c (List.mem_cons_self c rest)
    have hc1 : containsKey c.1 tc.mCookieTagMap.entries = false :=
      hfresh c (List.mem_cons_self c rest)
    have hlt : tc.mCookieTagMap.entries.length < tc.mCookieTagMap.capacity := by
      simp only [List.length_cons] at hcap
      omega
    have hup := BpfMap.updateEntry_ok_of_room
      (m := tc.mCookieTagMap) (k := c.1) { uid := c.2.2, tag := c.2.1 } hc1 hlt
    have hstep : tagSocket tc c.1 c.2.1 c.2.2 =
        ({ tc with mCookieTagMap :=
            { tc.mCookieTagMap with
              entries := (c.1, { uid := c.2.2, tag := c.2.1 }) ::
                tc.mCookieTagMap.entries } }, none) := by
      simp only [tagSocket, if_neg hcz, hup]
    have hnotin : ∀ c' ∈ rest, c'.1 ≠ c.1 := by
      intro c' hc' heq
      have hmem : c.1 ∈ rest.map (fun x => x.1) := by
        rw [← heq]
        exact List.mem_map_of_mem (fun x => x.1) hc'
      exact (List.nodup_cons.mp hnodup).1 hmem
    obtain ⟨tc', hall, hcapeq, hlen, hlook, hframe, hm1, hm2, hm3⟩ :=
      ih ({ tc with mCookieTagMap :=
              { tc.mCookieTagMap with
                entries := (c.1, { uid := c.2.2, tag := c.2.1 }) ::
                  tc.mCookieTagMap.entries } })
        (fun c' hc' => hnz c' (List.mem_cons_of_mem c hc'))
        (by
          intro c' hc'
          have hne : c.1 ≠ c'.1 := fun h => (hnotin c' hc') h.symm
          simpa [hne] using hfresh c' (List.mem_cons_of_mem c hc'))
        (List.nodup_cons.mp hnodup).2
        (by
          simp only [List.length_cons] at hcap ⊢
          omega)
    refine ⟨tc', ?_, ?_, ?_, ?_, ?_, hm1, hm2, hm3⟩
    · simp only [tagSocketAll, hstep]
      exact hall
    · exact hcapeq
    · simp only [hlen, List.length_cons]
      omega
    · intro c' hc'
      rcases List.mem_cons.mp hc' with h | h
      · subst h
        have := hframe c'.1 (fun c'' hc'' => hnotin c'' hc'')
        rw [this]
        simp [BpfMap.lookup]
      · exact hlook c' h
    · intro k hk
      have h1 := hframe k (fun c'' hc'' => hk c'' (List.mem_cons_of_mem c hc''))
      rw [h1]
      have hck : c.1 ≠ k := hk c (List.mem_cons_self c rest)
      simp [BpfMap.lookup, hck]

/-! ## Claim theorems -/

/-- C1: for every pair (tag `t`, uid `u`) and every statistics-table state,
`deleteTagData t u` removes every uid-stats and tagged-stats entry whose key
has uid `u` and tag `t`; when `t = 0` it additionally removes every
tagged-stats entry of uid `u` regardless of tag; every entry of a different
uid — and, when `t ≠ 0`, every entry of uid `u` with a different tag — is
left unchanged. -/
theorem c1_deleteTagData_purges_matching (tc : TrafficController) (t u : Nat) :
    (∀ k : StatsKey, k.uid = u → k.tag = t →
      (deleteTagData tc t u).1.mUidStatsMap.lookup k = none ∧
      (deleteTagData tc t u).1.mTagStatsMap.lookup k = none) ∧
    (t = 0 → ∀ k : StatsKey, k.uid = u →
      (deleteTagData tc t u).1.mTagStatsMap.lookup k = none) ∧
    (∀ k : StatsKey, k.uid ≠ u →
      (deleteTagData tc t u).1.mUidStatsMap.lookup k = tc.mUidStatsMap.lookup k ∧
      (deleteTagData tc t u).1.mTagStatsMap.lookup k = tc.mTagStatsMap.lookup k) ∧
    (t ≠ 0 → ∀ k : StatsKey, k.uid = u → k.tag ≠ t →
      (deleteTagData tc t u).1.mUidStatsMap.lookup k = tc.mUidStatsMap.lookup k ∧
      (deleteTagData tc t u).1.mTagStatsMap.lookup k = tc.mTagStatsMap.lookup k) := by
  simp only [deleteTagData, BpfMap.lookup]
  refine ⟨?_, ?_, ?_, ?_⟩
  · intro k h1 h2
    exact ⟨findValue_removeMatching_of_true (by simp [matchUidStatsKey, h1, h2]) _,
           findValue_removeMatching_of_true (by simp [matchTagStatsKey, h1, h2]) _⟩
  · intro ht k h1
    exact findValue_removeMatching_of_true (by simp [matchTagStatsKey, h1, ht]) _
  · intro k h1
    exact ⟨findValue_removeMatching_of_false (by simp [matchUidStatsKey, h1]) _,
           findValue_removeMatching_of_false (by simp [matchTagStatsKey, h1]) _⟩
  · intro ht k h1 h2
    exact ⟨findValue_removeMatching_of_false (by simp [matchUidStatsKey, h2]) _,
           findValue_removeMatching_of_false (by simp [matchTagStatsKey, h2, ht]) _⟩

/-- C1 witness: purging (tag 7, uid 5) on a concrete state removes uid 5's
tagged bucket and leaves uid 6's bucket untouched. -/
theorem c1_witness :
    (deleteTagData tcStatsEx 7 5).1.mTagStatsMap.lookup
      { uid := 5, tag := 7, counterSet := 0, ifaceIndex := 1 } = none ∧
    (deleteTagData tcStatsEx 7 5).1.mTagStatsMap.lookup
      { uid := 6, tag := 7, counterSet := 0, ifaceIndex := 1 } =
      tcStatsEx.mTagStatsMap.lookup
        { uid := 6, tag := 7, counterSet := 0, ifaceIndex := 1 } := by
  refine ⟨?_, ?_⟩
  · exact ((c1_deleteTagData_purges_matching tcStatsEx 7 5).1
      { uid := 5, tag := 7, counterSet := 0, ifaceIndex := 1 } rfl rfl).2
  · exact ((c1_deleteTagData_purges_matching tcStatsEx 7 5).2.2.1
      { uid := 6, tag := 7, counterSet := 0, ifaceIndex := 1 } (by decide)).2

/-- C2: after a successful `tagSocket` of cookie `c`, a second `tagSocket`
of the same cookie succeeds (the overwrite is not an error) and leaves
exactly one entry for `c`, holding the second call's uid and tag. -/
theorem c2_retag_overwrites_single_entry (tc tc1 : TrafficController)
    (c t1 u1 t2 u2 : Nat) (h1 : tagSocket tc c t1 u1 = (tc1, none)) :
    ∃ tc2, tagSocket tc1 c t2 u2 = (tc2, none) ∧
      countKey c tc2.mCookieTagMap.entries = 1 ∧
      tc2.mCookieTagMap.lookup c = some { uid := u2, tag := t2 } := by
  by_cases hcz : c = NONEXIST_COOKIE
  · simp [tagSocket, hcz] at h1
  · simp only [tagSocket, if_neg hcz] at h1
    cases hup : tc.mCookieTagMap.updateEntry c { uid := u1, tag := t1 } with
    | ok m =>
      rw [hup] at h1
      simp only at h1
      injection h1 with ha _
      have hsome : findValue c m.entries = some { uid := u1, tag := t1 } :=
        BpfMap.updateEntry_ok_lookup_self hup
      have hcont : containsKey c tc1.mCookieTagMap.entries = true := by
        rw [← ha]
        exact containsKey_eq_true_of_findValue_eq_some hsome
      have hup2 := BpfMap.updateEntry_ok_of_containsKey
        (m := tc1.mCookieTagMap) (k := c) { uid := u2, tag := t2 } hcont
      refine ⟨_, by simp only [tagSocket, if_neg hcz, hup2]; rfl, ?_, ?_⟩
      · exact BpfMap.updateEntry_ok_countKey hup2
      · exact BpfMap.updateEntry_ok_lookup_self hup2
    | error e =>
      rw [hup] at h1
      simp at h1

/-- C2 witness: re-tagging cookie 1 (first tagged with tag 2, uid 3) with
tag 4, uid 5 leaves a single entry holding uid 5, tag 4. -/
theorem c2_witness :
    countKey 1 ((tagSocket tcTagged 1 4 5).1.mCookieTagMap.entries) = 1 ∧
    (tagSocket tcTagged 1 4 5).1.mCookieTagMap.lookup 1 =
      some { uid := 5, tag := 4 } := by
  obtain ⟨tc2, htag, hcount, hlook⟩ :=
    c2_retag_overwrites_single_entry tcStart tcTagged 1 2 3 4 5 (by decide)
  have h1 : (tagSocket tcTagged 1 4 5).1 = tc2 := by rw [htag]
  rw [h1]
  exact ⟨hcount, hlook⟩

/-- C3: from an empty cookie→identity table of capacity `N`, `N` `tagSocket`
calls for `N` distinct new cookies all succeed; a further call for a fresh
cookie fails with `ResourceExhausted` and evicts nothing (the state is
returned unchanged); re-tagging any of the `N` present cookies still
succeeds, because overwriting an existing key is not an insertion. -/
theorem c3_capacity_boundary (N : Nat) (tc : TrafficController)
    (hempty : tc.mCookieTagMap.entries = [])
    (hcap : tc.mCookieTagMap.capacity = N)
    (calls : List (Nat × Nat × Nat))
    (hlen : calls.length = N)
    (hnz : ∀ c ∈ calls, c.1 ≠ NONEXIST_COOKIE)
    (hnodup : (calls.map (fun c => c.1)).Nodup) :
    ∃ tc', tagSocketAll tc calls = (tc', none) ∧
      (∀ cNew tag uid, cNew ≠ NONEXIST_COOKIE → (∀ c ∈ calls, c.1 ≠ cNew) →
        tagSocket tc' cNew tag uid = (tc', some .ResourceExhausted)) ∧
      (∀ c ∈ calls, ∀ tag uid,
        ∃ tc'', tagSocket tc' c.1 tag uid = (tc'', none)) := by
  obtain ⟨tc', hall, hcapeq, hlenq, hlook, hframe, _, _, _⟩ :=
    tagSocketAll_fresh calls tc hnz
      (by intro c hc; simp [hempty])
      hnodup
      (by simp [hempty, hlen, hcap])
  refine ⟨tc', hall, ?_, ?_⟩
  · intro cNew tag uid hcz hfreshNew
    have hlookNew : findValue cNew tc'.mCookieTagMap.entries = none := by
      have h := hframe cNew hfreshNew
      simp only [BpfMap.lookup] at h
      rw [h, hempty]
      rfl
    have hcont : containsKey cNew tc'.mCookieTagMap.entries = false := by
      rw [containsKey_eq_isSome_findValue, hlookNew]
      rfl
    have h0 : tc.mCookieTagMap.entries.length = 0 := by rw [hempty]; rfl
    have hfull : ¬ tc'.mCookieTagMap.entries.length < tc'.mCookieTagMap.capacity := by
      rw [hlenq, hcapeq, hcap, h0, hlen]
      omega
    have herr := BpfMap.updateEntry_full_fresh
      (m := tc'.mCookieTagMap) (k := cNew) { uid := uid, tag := tag } hcont hfull
    simp only [tagSocket, if_neg hcz, herr]
  · intro c hc tag uid
    have hcz : c.1 ≠ NONEXIST_COOKIE := hnz c hc
    have hcont : containsKey c.1 tc'.mCookieTagMap.entries = true :=
      containsKey_eq_true_of_findValue_eq_some (hlook c hc)
    have hok := BpfMap.updateEntry_ok_of_containsKey
      (m := tc'.mCookieTagMap) (k := c.1) { uid := uid, tag := tag } hcont
    exact ⟨_, by simp only [tagSocket, if_neg hcz, hok]; rfl⟩

/-- C3 witness: capacity 2, cookies 1 and 2 both tagged; cookie 3 is
rejected with `ResourceExhausted`; re-tagging cookie 1 succeeds. -/
theorem c3_witness :
    (tagSocketAll tcCap2 callsCap2).2 = none ∧
    (tagSocket (tagSocketAll tcCap2 callsCap2).1 3 12 22).2 =
      some .ResourceExhausted ∧
    (tagSocket (tagSocketAll tcCap2 callsCap2).1 1 13 23).2 = none := by
  obtain ⟨tc', hall, hfail, hretag⟩ :=
    c3_capacity_boundary 2 tcCap2 rfl rfl callsCap2 rfl (by decide) (by decide)
  have h1 : (tagSocketAll tcCap2 callsCap2).1 = tc' := by rw [hall]
  refine ⟨by rw [hall], ?_, ?_⟩
  · rw [h1, hfail 3 12 22 (by decide) (by decide)]
  · rw [h1]
    obtain ⟨tc'', htag⟩ := hretag (1, 10, 20) (by decide) 13 23
    rw [htag]

/-- C4 counterexample: the claim as stated fails on a full uid→counterSet
table (a state reachable by 100 successful `setCounterSet` calls, the table
capacity being `UID_COUNTERSET_MAP_SIZE = 100`): counterSet 1 is inside
`[0, COUNTERSETS_LIMIT)`, yet `setCounterSet 1 200` does not upsert
`200 -> 1` — it fails with `ResourceExhausted` and creates no entry. -/
theorem c4_counterexample :
    ((0 : Int) ≤ 1 ∧ (1 : Int) < COUNTERSETS_LIMIT) ∧
    setCounterSet tcFullCounterSet 1 200 =
      (tcFullCounterSet, some .ResourceExhausted) ∧
    (setCounterSet tcFullCounterSet 1 200).1.mUidCounterSetMap.lookup 200 =
      none := by
  decide

/-- C4 (amended): `setCounterSet` fails with `InvalidArgument` when the
counterSet is outside `[0, COUNTERSETS_LIMIT)`, leaving the state
unchanged; otherwise it atomically upserts `uid -> counterSet` — provided
the uid is already present or the table is below capacity — touching no
other uid's entry; for a new uid in a full table it fails with
`ResourceExhausted` (spec §3 invariant (4)) and changes nothing. -/
theorem c4_setCounterSet_range_checked (tc : TrafficController) (c : Int)
    (u : Nat) :
    ((c < 0 ∨ COUNTERSETS_LIMIT ≤ c) →
      setCounterSet tc c u = (tc, some .InvalidArgument)) ∧
    (0 ≤ c → c < COUNTERSETS_LIMIT →
      (containsKey u tc.mUidCounterSetMap.entries = true ∨
        tc.mUidCounterSetMap.entries.length < tc.mUidCounterSetMap.capacity) →
      ∃ tc', setCounterSet tc c u = (tc', none) ∧
        tc'.mUidCounterSetMap.lookup u = some c.toNat ∧
        ∀ u', u' ≠ u →
          tc'.mUidCounterSetMap.lookup u' = tc.mUidCounterSetMap.lookup u') ∧
    (0 ≤ c → c < COUNTERSETS_LIMIT →
      containsKey u tc.mUidCounterSetMap.entries = false →
      ¬ tc.mUidCounterSetMap.entries.length < tc.mUidCounterSetMap.capacity →
      setCounterSet tc c u = (tc, some .ResourceExhausted)) := by
  refine ⟨?_, ?_, ?_⟩
  · intro h
    simp only [setCounterSet, if_pos h]
  · intro h0 h1 hroom
    have hcond : ¬ (c < 0 ∨ COUNTERSETS_LIMIT ≤ c) := by omega
    by_cases hcont : containsKey u tc.mUidCounterSetMap.entries
    · have hok := BpfMap.updateEntry_ok_of_containsKey
        (m := tc.mUidCounterSetMap) (k := u) c.toNat hcont
      refine ⟨_, by simp only [setCounterSet, if_neg hcond, hok]; rfl, ?_, ?_⟩
      · exact BpfMap.updateEntry_ok_lookup_self hok
      · intro u' hu'
        exact BpfMap.updateEntry_ok_lookup_ne hok hu'
    · have hlt : tc.mUidCounterSetMap.entries.length <
          tc.mUidCounterSetMap.capacity := by
        rcases hroom with h | h
        · exact absurd h hcont
        · exact h
      have hok := BpfMap.updateEntry_ok_of_room
        (m := tc.mUidCounterSetMap) (k := u) c.toNat
        (Bool.of_not_eq_true hcont) hlt
      refine ⟨_, by simp only [setCounterSet, if_neg hcond, hok]; rfl, ?_, ?_⟩
      · exact BpfMap.updateEntry_ok_lookup_self hok
      · intro u' hu'
        exact BpfMap.updateEntry_ok_lookup_ne hok hu'
  · intro h0 h1 hcont hfull
    have hcond : ¬ (c < 0 ∨ COUNTERSETS_LIMIT ≤ c) := by omega
    have herr := BpfMap.updateEntry_full_fresh
      (m := tc.mUidCounterSetMap) (k := u) c.toNat hcont hfull
    simp only [setCounterSet, if_neg hcond, herr]

/-- C4 witness: counterSet 5 is rejected with `InvalidArgument` leaving the
fresh state unchanged; counterSet 1 for uid 7 is upserted. -/
theorem c4_witness :
    setCounterSet tcStart 5 7 = (tcStart, some .InvalidArgument) ∧
    (setCounterSet tcStart 1 7).2 = none ∧
    (setCounterSet tcStart 1 7).1.mUidCounterSetMap.lookup 7 = some 1 := by
  have hbad := (c4_setCounterSet_range_checked tcStart 5 7).1 (by decide)
  obtain ⟨tc', heq, hlook, _⟩ :=
    (c4_setCounterSet_range_checked tcStart 1 7).2.1 (by decide) (by decide)
      (Or.inr (by decide))
  refine ⟨hbad, ?_, ?_⟩
  · rw [heq]
  · have h1 : (setCounterSet tcStart 1 7).1 = tc' := by rw [heq]
    rw [h1]
    exact hlook

/-- C5: when all four tables open, `start` succeeds whatever the two attach
outcomes, recording attach failure in `ebpfSupported`, and every control
operation remains functional on the started state; failure to open or
create any table is fatal and propagated. -/
theorem c5_start_tolerates_attach_failure (env : StartEnv) :
    ((env.cookieTagMapOk && env.uidCounterSetMapOk && env.uidStatsMapOk &&
        env.tagStatsMapOk) = true →
      ∃ tc, start env = .ok tc ∧
        tc.ebpfSupported = (env.ingressAttachOk && env.egressAttachOk) ∧
        (∀ cookie tag uid, cookie ≠ NONEXIST_COOKIE →
          ∃ tc', tagSocket tc cookie tag uid = (tc', none)) ∧
        (∀ cookie, (untagSocket tc cookie).2 = none) ∧
        (∀ (c : Int) (uid : Nat), 0 ≤ c → c < COUNTERSETS_LIMIT →
          ∃ tc', setCounterSet tc c uid = (tc', none)) ∧
        (∀ tag uid, (deleteTagData tc tag uid).2 = none)) ∧
    ((env.cookieTagMapOk && env.uidCounterSetMapOk && env.uidStatsMapOk &&
        env.tagStatsMapOk) = false →
      start env = .error .Io) := by
  constructor
  · intro hok
    refine ⟨{ tcStart with
        ebpfSupported := env.ingressAttachOk && env.egressAttachOk },
      ?_, rfl, ?_, ?_, ?_, ?_⟩
    · unfold start
      rw [if_pos hok]
      rfl
    · intro cookie tag uid hcz
      have hroom := BpfMap.updateEntry_ok_of_room
        (m := ({ entries := [], capacity := COOKIE_UID_MAP_SIZE } : BpfMap Nat UidTag))
        (k := cookie) { uid := uid, tag := tag } rfl (by decide)
      exact ⟨_, by simp only [tagSocket, if_neg hcz, tcStart, hroom]; rfl⟩
    · intro cookie
      rfl
    · intro c uid h0 h1
      have hcond : ¬ (c < 0 ∨ COUNTERSETS_LIMIT ≤ c) := by omega
      have hroom := BpfMap.updateEntry_ok_of_room
        (m := ({ entries := [], capacity := UID_COUNTERSET_MAP_SIZE } : BpfMap Nat Nat))
        (k := uid) c.toNat rfl (by decide)
      exact ⟨_, by simp only [setCounterSet, if_neg hcond, tcStart, hroom]; rfl⟩
    · intro tag uid
      rfl
  · intro hbad
    simp [start, hbad]

/-- C5 witness: with all tables ok and both attachments failed, `start`
still succeeds with `ebpfSupported = false`, and tagging works on the
started state. -/
theorem c5_witness :
    start envAttachFail = .ok { tcStart with ebpfSupported := false } ∧
    (tagSocket { tcStart with ebpfSupported := false } 1 2 3).2 = none := by
  obtain ⟨tcw, hstart, hflag, htag, hus, hsc, hdel⟩ :=
    (c5_start_tolerates_attach_failure envAttachFail).1 rfl
  have hcalc : start envAttachFail = .ok { tcStart with ebpfSupported := false } :=
    rfl
  rw [hstart] at hcalc
  injection hcalc with hcw
  obtain ⟨tc', htag'⟩ := htag 1 2 3 (by decide)
  refine ⟨?_, ?_⟩
  · rw [hstart, hcw]
  · rw [← hcw, htag']

/-- C6: `untagSocket` never reports an error, and on a cookie with no
cookie→identity entry both `untagSocket` and the teardown reclaimer's
deletion are exact no-ops — absence is success and the state is unchanged. -/
theorem c6_absent_cookie_noop (tc : TrafficController) (cookie : Nat) :
    (untagSocket tc cookie).2 = none ∧
    (tc.mCookieTagMap.lookup cookie = none →
      untagSocket tc cookie = (tc, none) ∧ handleSkDestroy tc cookie = tc) := by
  refine ⟨rfl, fun h => ?_⟩
  have he : removeKey cookie tc.mCookieTagMap.entries = tc.mCookieTagMap.entries :=
    removeKey_of_findValue_eq_none h
  constructor
  · simp only [untagSocket, BpfMap.deleteEntry, he]
  · simp only [handleSkDestroy, BpfMap.deleteEntry, he]

/-- C6 witness: on the fresh state, untagging and a teardown notification
for the never-tagged cookie 42 are both no-ops. -/
theorem c6_witness :
    untagSocket tcStart 42 = (tcStart, none) ∧
    handleSkDestroy tcStart 42 = tcStart :=
  (c6_absent_cookie_noop tcStart 42).2 rfl

/-- C7: processing one socket-destroy notification mutates at most the
cookie→identity entry of the notified cookie: both statistics tables, the
uid→counterSet table, the disabled flag, the table capacity, and every
entry of a different cookie are left unchanged. -/
theorem c7_skdestroy_frame (tc : TrafficController) (cookie : Nat) :
    (handleSkDestroy tc cookie).mUidCounterSetMap = tc.mUidCounterSetMap ∧
    (handleSkDestroy tc cookie).mUidStatsMap = tc.mUidStatsMap ∧
    (handleSkDestroy tc cookie).mTagStatsMap = tc.mTagStatsMap ∧
    (handleSkDestroy tc cookie).ebpfSupported = tc.ebpfSupported ∧
    (handleSkDestroy tc cookie).mCookieTagMap.capacity =
      tc.mCookieTagMap.capacity ∧
    ∀ c', c' ≠ cookie →
      (handleSkDestroy tc cookie).mCookieTagMap.lookup c' =
        tc.mCookieTagMap.lookup c' := by
  refine ⟨rfl, rfl, rfl, rfl, rfl, fun c' h => ?_⟩
  exact findValue_removeKey_ne h _

/-- C7 witness: destroying cookie 9 on the state that tagged cookie 1 keeps
the statistics tables and cookie 1's entry intact. -/
theorem c7_witness :
    (handleSkDestroy tcTagged 9).mUidStatsMap = tcTagged.mUidStatsMap ∧
    (handleSkDestroy tcTagged 9).mCookieTagMap.lookup 1 =
      tcTagged.mCookieTagMap.lookup 1 := by
  obtain ⟨_, h2, _, _, _, hlook⟩ := c7_skdestroy_frame tcTagged 9
  exact ⟨h2, hlook 1 (by decide)⟩

/-- C8: for every order in which M `tagSocket` calls for M distinct fresh
cookies can land on the shared table — each per-entry update being one
atomic primitive operation, any concurrent execution is equivalent to some
such order — all M calls succeed and exactly M entries result, each
holding the uid and tag its caller supplied (no lost updates), provided
M is at most the table capacity. -/
theorem c8_concurrent_distinct_cookies (calls : List (Nat × Nat × Nat))
    (tc : TrafficController)
    (hempty : tc.mCookieTagMap.entries = [])
    (hnz : ∀ c ∈ calls, c.1 ≠ NONEXIST_COOKIE)
    (hnodup : (calls.map (fun c => c.1)).Nodup)
    (hM : calls.length ≤ tc.mCookieTagMap.capacity) :
    ∃ tc', tagSocketAll tc calls = (tc', none) ∧
      tc'.mCookieTagMap.entries.length = calls.length ∧
      ∀ c ∈ calls,
        tc'.mCookieTagMap.lookup c.1 = some { uid := c.2.2, tag := c.2.1 } := by
  obtain ⟨tc', hall, _, hlen, hlook, _, _, _, _⟩ :=
    tagSocketAll_fresh calls tc hnz
      (by intro c hc; simp [hempty])
      hnodup
      (by simpa [hempty] using hM)
  refine ⟨tc', hall, ?_, hlook⟩
  rw [hlen, hempty]
  simp

/-- C8 witness: three callers' tags for cookies 1, 2, 3 all land; exactly
three entries; cookie 2 holds its caller's uid 21 and tag 11. -/
theorem c8_witness :
    (tagSocketAll tcStart callsThree).2 = none ∧
    (tagSocketAll tcStart callsThree).1.mCookieTagMap.entries.length = 3 ∧
    (tagSocketAll tcStart callsThree).1.mCookieTagMap.lookup 2 =
      some { uid := 21, tag := 11 } := by
  obtain ⟨tc', hall, hlen, hlook⟩ :=
    c8_concurrent_distinct_cookies callsThree tcStart rfl (by decide) (by decide)
      (by decide)
  have h1 : (tagSocketAll tcStart callsThree).1 = tc' := by rw [hall]
  refine ⟨by rw [hall], ?_, ?_⟩
  · rw [h1]
    exact hlen
  · rw [h1]
    exact hlook (2, 11, 21) (by decide)

/-- C9: a `Stats` value consists of exactly twelve counters, one per
combination of {rx, tx} × {packets, bytes} × {tcp, udp, other} (the twelve
combinations are exhaustive, distinct, and determine the value), and this
system never decrements one: the purge only deletes whole entries (every
surviving entry keeps its exact old value), and every other operation
leaves both statistics tables untouched. -/
theorem c9_stats_twelve_wholesale :
    allCounterKinds.length = 12 ∧
    allCounterKinds.Nodup ∧
    (∀ (d : Direction) (ck : CountKind) (p : TransportProto),
      (d, ck, p) ∈ allCounterKinds) ∧
    (∀ s t : Stats, (∀ d ck p, s.counter d ck p = t.counter d ck p) → s = t) ∧
    (∀ (tc : TrafficController) (tag uid : Nat) (k : StatsKey) (v : Stats),
      ((deleteTagData tc tag uid).1.mUidStatsMap.lookup k = some v →
        tc.mUidStatsMap.lookup k = some v) ∧
      ((deleteTagData tc tag uid).1.mTagStatsMap.lookup k = some v →
        tc.mTagStatsMap.lookup k = some v)) ∧
    (∀ (tc : TrafficController) (cookie tag uid : Nat),
      (tagSocket tc cookie tag uid).1.mUidStatsMap = tc.mUidStatsMap ∧
      (tagSocket tc cookie tag uid).1.mTagStatsMap = tc.mTagStatsMap) ∧
    (∀ (tc : TrafficController) (cookie : Nat),
      (untagSocket tc cookie).1.mUidStatsMap = tc.mUidStatsMap ∧
      (untagSocket tc cookie).1.mTagStatsMap = tc.mTagStatsMap ∧
      (handleSkDestroy tc cookie).mUidStatsMap = tc.mUidStatsMap ∧
      (handleSkDestroy tc cookie).mTagStatsMap = tc.mTagStatsMap) ∧
    (∀ (tc : TrafficController) (c : Int) (u : Nat),
      (setCounterSet tc c u).1.mUidStatsMap = tc.mUidStatsMap ∧
      (setCounterSet tc c u).1.mTagStatsMap = tc.mTagStatsMap) := by
  refine ⟨rfl, by decide, ?_, ?_, ?_, ?_, ?_, ?_⟩
  · intro d ck p
    cases d <;> cases ck <;> cases p <;> simp [allCounterKinds]
  · intro s t h
    cases s
    cases t
    simp only [Stats.mk.injEq]
    exact ⟨h .rx .packets .tcp, h .rx .bytes .tcp, h .tx .packets .tcp,
           h .tx .bytes .tcp, h .rx .packets .udp, h .rx .bytes .udp,
           h .tx .packets .udp, h .tx .bytes .udp, h .rx .packets .other,
           h .rx .bytes .other, h .tx .packets .other, h .tx .bytes .other⟩
  · intro tc tag uid k v
    exact ⟨fun h => findValue_removeMatching_some h,
           fun h => findValue_removeMatching_some h⟩
  · intro tc cookie tag uid
    unfold tagSocket
    by_cases hc : cookie = NONEXIST_COOKIE
    · simp [hc]
    · simp only [if_neg hc]
      cases h : tc.mCookieTagMap.updateEntry cookie { uid := uid, tag := tag } <;>
        simp
  · intro tc cookie
    exact ⟨rfl, rfl, rfl, rfl⟩
  · intro tc c u
    unfold setCounterSet
    by_cases hcond : c < 0 ∨ COUNTERSETS_LIMIT ≤ c
    · simp [hcond]
    · simp only [if_neg hcond]
      cases h : tc.mUidCounterSetMap.updateEntry u c.toNat <;> simp

/-- C9 witness: uid 6's bucket survives the purge of (tag 7, uid 5) with
its exact old `Stats` value. -/
theorem c9_witness :
    tcStatsEx.mTagStatsMap.lookup
      { uid := 6, tag := 7, counterSet := 0, ifaceIndex := 1 } =
      some statsZero := by
  have h := (c9_stats_twelve_wholesale.2.2.2.2.1 tcStatsEx 7 5
    { uid := 6, tag := 7, counterSet := 0, ifaceIndex := 1 } statsZero).2
  exact h (by decide)

/-- C10: the purge-walk sentinel `NONEXIST_STATSKEY` equals
`{uid = DEFAULT_OVERFLOWUID = 65534, tag = 0, counterSet = 0,
ifaceIndex = 0}`, which is itself a well-formed `StatsKey`: the key the
accounting path would use for untagged class-0 traffic of the overflow uid
on interface index 0 is exactly equal to the sentinel, hence
indistinguishable from it. -/
theorem c10_sentinel_is_wellformed_key :
    NONEXIST_STATSKEY =
      { uid := 65534, tag := 0, counterSet := 0, ifaceIndex := 0 } ∧
    NONEXIST_STATSKEY.uid = DEFAULT_OVERFLOWUID ∧
    NONEXIST_STATSKEY.tag = 0 ∧
    NONEXIST_STATSKEY.wellFormed ∧
    accountingStatsKey DEFAULT_OVERFLOWUID 0 0 0 = NONEXIST_STATSKEY := by
  refine ⟨rfl, rfl, rfl, ?_, rfl⟩
  decide

end AndroidNet
